import Mathlib

/-!
Verification development for the Forecast Serving & Caching Engine of the
Forecasting_Agent repository.

The embedding covers:
* `MLE/cache.py` — `PredictionCache` (`_get_key`, `get_forecast`, `set_forecast`),
  a Redis-backed result cache keyed by `pred:{TICKER}:{hash(tuple(data))}`;
* `MLE/api.py` — the `/predict` pipeline (`get_model_path`,
  `load_model_for_ticker`, `predict`) with its lazy model cache, the
  inference call and the result-cache read/write around it;
* `DA_API/api_.py` — the forecast-orchestration part of `analyze`
  (validation forecast, future forecast, confidence bounds) and
  `generate_future_dates`.

Modelling conventions:
* Python floats are modelled as exact rationals `ℚ`; Python's numeric hash
  (the reduction modulo the Mersenne prime `2^61 - 1` documented for CPython,
  with `-1` remapped to `-2`) and CPython's xxHash-based tuple hash are
  embedded exactly over those rationals (a Python float's denominator is a
  power of two, for which `pyInvDen` computes the documented modular inverse).
* The loaded model (an opaque callable in the spec's own words) is a function
  `List ℚ → List ℚ`; the inference executor invocation is counted in the
  state so call-count properties can be stated.
* Redis is modelled by an association list of key/value pairs together with
  two flags: `enabled` (the connectivity probe in `PredictionCache.__init__`
  succeeded) and `backendUp` (a later `get`/`set` round-trip would succeed;
  when it is false the code's `try/except` swallows the error).  TTL expiry
  is not modelled: all claims are about behaviour before expiry.
* Dates are modelled as proleptic-Gregorian ordinals (`ℕ`), exactly the value
  Python's `date.toordinal` gives; ordinal 1 is a Monday, so Python's
  `weekday()` is `(o - 1) % 7` with Monday = 0 and Saturday/Sunday = 5/6.
-/

set_option allowUnsafeReducibility true
attribute [semireducible] Rat.add Rat.mul Rat.sub Rat.inv Rat.div
set_option maxRecDepth 8000

/-! ### CPython numeric and tuple hashing (used by `PredictionCache._get_key`) -/

/-- The CPython hash modulus `2^61 - 1` (a Mersenne prime). -/
def pyM : ℤ := 2 ^ 61 - 1

/-- Base-2 logarithm by structural recursion on a fuel argument
(`log2Aux n n` = `Nat.log2 n`, but reducible by the kernel). -/
def log2Aux : ℕ → ℕ → ℕ
  | 0, _ => 0
  | fuel + 1, n => if n ≥ 2 then log2Aux fuel (n / 2) + 1 else 0

/-- Base-2 logarithm of `n` (rounded down). -/
def plog2 (n : ℕ) : ℕ := log2Aux n n

/-- Modular inverse of a power-of-two denominator modulo `pyM`:
`inv 2 = 2^60 (mod 2^61 - 1)`, so `inv (2^k) = 2^(60*k) mod pyM`.
Python float denominators are always powers of two, so this is total
and agrees with CPython on every float value. -/
def pyInvDen (d : ℕ) : ℤ := 2 ^ (60 * plog2 d) % pyM

/-- CPython's hash of a (float or rational) number: `|num| * den⁻¹ mod pyM`,
negated for negatives, with the error sentinel `-1` remapped to `-2`.
In particular `pyHashRat (-1) = -2 = pyHashRat (-2)`. -/
def pyHashRat (x : ℚ) : ℤ :=
  let h : ℤ := ((x.num.natAbs : ℤ) * pyInvDen x.den) % pyM
  let s : ℤ := if x.num < 0 then -h else h
  if s = -1 then -2 else s

/-- xxHash prime 1 used by CPython's tuple hash. -/
def XXPRIME_1 : ℕ := 11400714785074694791
/-- xxHash prime 2 used by CPython's tuple hash. -/
def XXPRIME_2 : ℕ := 14029467366897019727
/-- xxHash prime 5 used by CPython's tuple hash. -/
def XXPRIME_5 : ℕ := 2870177450012600261

/-- 64-bit rotate left by 31, as in CPython's `_PyHASH_XXROTATE`. -/
def xxRotate (x : ℕ) : ℕ := ((x <<< 31) ||| (x >>> 33)) % 2 ^ 64

/-- The accumulator loop of CPython's `tuplehash`, over the already-computed
element hashes (viewed as unsigned 64-bit lanes). -/
def tupleHashAux : List ℤ → ℕ → ℕ
  | [], acc => acc
  | h :: t, acc =>
      let lane : ℕ := (h % (2 : ℤ) ^ 64).toNat
      let acc1 := (acc + lane * XXPRIME_2) % 2 ^ 64
      let acc2 := (xxRotate acc1 * XXPRIME_1) % 2 ^ 64
      tupleHashAux t acc2

/-- CPython's `hash(tuple(data))` for a tuple of numbers: the xxHash loop over
the element hashes, a final length mix, reinterpretation as a signed 64-bit
integer, and the `-1 → 1546275796` remap. -/
def pyTupleHash (xs : List ℚ) : ℤ :=
  let acc := tupleHashAux (xs.map pyHashRat) XXPRIME_5
  let acc2 : ℕ := (acc + (xs.length ^^^ (XXPRIME_5 ^^^ 3527539))) % 2 ^ 64
  let signed : ℤ := if acc2 < 2 ^ 63 then (acc2 : ℤ) else (acc2 : ℤ) - 2 ^ 64
  if signed = -1 then 1546275796 else signed

namespace MLE

/-- `PredictionCache._get_key`: `"pred:" + ticker.upper() + ":" + insample_hash`. -/
def get_key (ticker : String) (insample_hash : String) : String :=
  "pred:" ++ ticker.toUpper ++ ":" ++ insample_hash

/-- The full cache key as computed inside `get_forecast`/`set_forecast`:
`_get_key(ticker, str(hash(tuple(data))))`. -/
def cacheKey (ticker : String) (data : List ℚ) : String :=
  get_key ticker (toString (pyTupleHash data))

/-- A loaded model is an opaque callable: 60 closing prices in, horizon out. -/
def Model : Type := List ℚ → List ℚ

/-- Process state of the MLE service: the `PredictionCache` (flags + backing
store contents + ttl) , the global `model_cache` dict, and a counter of
inference-executor invocations (the call-count spy of the spec). -/
structure MLEState where
  enabled : Bool
  backendUp : Bool
  store : List (String × List ℚ)
  ttl : ℕ
  models : List (String × Model)
  execCalls : ℕ

/-- `PredictionCache.__init__`: the connectivity probe (`redis.ping`) decides
`enabled`; an unreachable store leaves the cache disabled, it never raises. -/
def initCache (reachable : Bool) (ttl : ℕ) : MLEState :=
  { enabled := reachable, backendUp := reachable, store := [], ttl := ttl
    models := [], execCalls := 0 }

/-- `PredictionCache.get_forecast`: `None` when disabled; otherwise look the
key up, with any Redis error caught and turned into a miss. -/
def get_forecast (s : MLEState) (ticker : String) (data : List ℚ) :
    Option (List ℚ) :=
  if s.enabled = false then none
  else if s.backendUp = false then none
  else s.store.lookup (cacheKey ticker data)

/-- `PredictionCache.set_forecast`: no-op when disabled; otherwise write the
entry, with any Redis error caught and swallowed (state unchanged). -/
def set_forecast (s : MLEState) (ticker : String) (data forecast : List ℚ) :
    MLEState :=
  if s.enabled = false then s
  else if s.backendUp = false then s
  else { s with store := (cacheKey ticker data, forecast) :: s.store }

/-- `get_model_path`: `../DS/models/{ticker}_nbeats.pkl`. -/
def get_model_path (ticker : String) : String :=
  "../DS/models/" ++ ticker ++ "_nbeats.pkl"

/-- `load_model_for_ticker` over an artifact store (path → deserialized,
eval-mode model; `none` is `FileNotFoundError`).  Returns the updated
`model_cache` and the model, `none` signalling the not-found error. -/
def load_model_for_ticker (artifacts : String → Option Model)
    (mc : List (String × Model)) (ticker : String) :
    List (String × Model) × Option Model :=
  match mc.lookup ticker with
  | some m => (mc, some m)
  | none =>
      match artifacts (get_model_path ticker) with
      | none => (mc, none)
      | some m => ((ticker, m) :: mc, some m)

/-- Outcome of `/predict`: a 200 response or the 404 `ModelNotFound` path. -/
inductive PredictResult
  | ok (ticker : String) (forecast : List ℚ) (model_version : String)
  | notFound (ticker : String)
deriving DecidableEq

/-- The `/predict` handler: uppercase the ticker, consult the result cache
(Python truthiness: `None` and `[]` both fall through to the miss path),
on a miss load the model (404 when the artifact is absent), run inference
on the worker pool (counted), write the result cache best-effort, reply. -/
def predict (artifacts : String → Option Model) (s : MLEState)
    (ticker : String) (data : List ℚ) : MLEState × PredictResult :=
  let t := ticker.toUpper
  let cached := (get_forecast s t data).getD []
  if cached ≠ [] then
    (s, .ok t cached "N-BEATS-FP32-CACHED")
  else
    match load_model_for_ticker artifacts s.models t with
    | (mc, none) => ({ s with models := mc }, .notFound t)
    | (mc, some m) =>
        let forecast := m data
        let s1 := { s with models := mc, execCalls := s.execCalls + 1 }
        (set_forecast s1 t data forecast, .ok t forecast "N-BEATS-FP32")

end MLE

namespace DA

/-- Round-half-to-even to an integer, the semantics of Python's `round`. -/
def roundHalfEven (x : ℚ) : ℤ :=
  let f := ⌊x⌋
  if x - f < 1 / 2 then f
  else if x - f > 1 / 2 then f + 1
  else if f % 2 = 0 then f else f + 1

/-- Python's `round(x, 2)`: round half-to-even at two decimal places. -/
def round2 (x : ℚ) : ℚ := (roundHalfEven (x * 100) : ℚ) / 100

/-- `np.mean(np.abs(np.array(target) - np.array(pred)))` for equal-length
arrays: the mean of the element-wise absolute differences. -/
def npMeanAbsSub (target pred : List ℚ) : ℚ :=
  let diffs := List.zipWith (fun a p => |a - p|) target pred
  diffs.sum / diffs.length

/-- The `forecast_data["validation"]` payload when it is filled in. -/
structure ValidationData where
  dates : List ℕ
  actual : List ℚ
  predicted : List ℚ
  mae : ℚ
deriving DecidableEq

/-- The `forecast_data["future"]` payload when it is filled in. -/
structure FutureData where
  dates : List ℕ
  predicted : List ℚ
  predicted_upper : List ℚ
  predicted_lower : List ℚ
  mae : ℚ
deriving DecidableEq

/-- The validation-forecast block of `analyze`: when at least 90 closing
prices exist, slice the input window `[-90:-30]` and the target `[-30:]`,
call the MLE service (`oracle`; an empty list is the error return of
`DA.get_forecast`), and on a non-empty prediction record actuals,
predictions and the MAE rounded to two decimals.  `none` models the
initial empty `forecast_data["validation"]` dict. -/
def validationForecast (close_prices : List ℚ) (dates : List ℕ)
    (oracle : List ℚ → List ℚ) : Option ValidationData :=
  if close_prices.length ≥ 90 then
    let input_val := (close_prices.drop (close_prices.length - 90)).take 60
    let target_val := close_prices.drop (close_prices.length - 30)
    let target_dates := dates.drop (dates.length - 30)
    let val_pred := oracle input_val
    if val_pred ≠ [] then
      some { dates := target_dates, actual := target_val,
             predicted := val_pred,
             mae := round2 (npMeanAbsSub target_val val_pred) }
    else none
  else none

/-- `generate_future_dates`'s while-loop: advance one calendar day at a
time; append the day when its weekday (`(o - 1) % 7`, Monday = 0) is below
5, and stop once `need` dates have been collected.  The loop is embedded
with a fuel argument (first component) that the wrapper instantiates large
enough to be unreachable. -/
def genAux : ℕ → ℕ → ℕ → List ℕ
  | 0, _, _ => []
  | _ + 1, _, 0 => []
  | fuel + 1, cur, need + 1 =>
      let cur2 := cur + 1
      if (cur2 - 1) % 7 < 5 then cur2 :: genAux fuel cur2 need
      else genAux fuel cur2 (need + 1)

/-- `generate_future_dates(start_date, days)` over date ordinals. -/
def generate_future_dates (start_date days : ℕ) : List ℕ :=
  genAux (7 * days + 7) start_date days

/-- The future-forecast block of `analyze`: when at least 60 closing prices
exist, feed the most recent 60 through the MLE service; on a non-empty
prediction generate business dates from the last history date, read the MAE
off the validation payload (`.get("mae", 0)` — 0 when validation is absent)
and build `predicted ± mae` bounds. -/
def futureForecast (close_prices : List ℚ) (dates : List ℕ)
    (oracle : List ℚ → List ℚ) (validation : Option ValidationData) :
    Option FutureData :=
  if close_prices.length ≥ 60 then
    let input_future := close_prices.drop (close_prices.length - 60)
    let last_date := dates.getLastD 0
    let future_pred := oracle input_future
    if future_pred ≠ [] then
      let mae_value := (validation.map ValidationData.mae).getD 0
      some { dates := generate_future_dates last_date future_pred.length,
             predicted := future_pred,
             predicted_upper := future_pred.map (fun p => p + mae_value),
             predicted_lower := future_pred.map (fun p => p - mae_value),
             mae := mae_value }
    else none
  else none

/-- The whole forecasting section of `analyze`: the validation block runs
first, the future block second, and the only data flowing between them is
the validation MAE. -/
def analyzeForecast (close_prices : List ℚ) (dates : List ℕ)
    (valOracle futOracle : List ℚ → List ℚ) :
    Option ValidationData × Option FutureData :=
  let v := validationForecast close_prices dates valOracle
  (v, futureForecast close_prices dates futOracle v)

end DA

/-- Proof device for the `generate_future_dates` loop: how many consecutive
days the loop will skip before its next append, as a function of the current
day's ordinal (`2` just before a weekend, by the `(o - 1) % 7` convention). -/
def DA.pad (cur : ℕ) : ℕ :=
  if cur % 7 = 5 then 2 else if cur % 7 = 6 then 1 else 0

/-! ### Helper lemmas -/

theorem DA.pad_le (cur : ℕ) : DA.pad cur ≤ 2 := by
  simp only [DA.pad]; split_ifs <;> omega

theorem DA.genAux_length (fuel : ℕ) : ∀ cur need, DA.pad cur + 3 * need ≤ fuel →
    (DA.genAux fuel cur need).length = need := by
  induction fuel with
  | zero =>
      intro cur need h
      have hn : need = 0 := by omega
      subst hn; simp [DA.genAux]
  | succ fuel ih =>
      intro cur need h
      match need with
      | 0 => simp [DA.genAux]
      | need + 1 =>
          simp only [DA.genAux]
          by_cases hc : (cur + 1 - 1) % 7 < 5
          · rw [if_pos hc]
            simp only [List.length_cons]
            rw [ih (cur + 1) need ?_]
            have := DA.pad_le (cur + 1)
            simp only [DA.pad] at h ⊢
            split_ifs at h ⊢ <;> omega
          · rw [if_neg hc]
            apply ih
            simp only [DA.pad] at h ⊢
            split_ifs at h ⊢ <;> omega

theorem DA.genAux_weekday (fuel : ℕ) : ∀ cur need d, d ∈ DA.genAux fuel cur need →
    (d - 1) % 7 < 5 := by
  induction fuel with
  | zero => intro cur need d h; simp [DA.genAux] at h
  | succ fuel ih =>
      intro cur need d h
      match need with
      | 0 => simp [DA.genAux] at h
      | need + 1 =>
          simp only [DA.genAux] at h
          by_cases hc : (cur + 1 - 1) % 7 < 5
          · rw [if_pos hc] at h
            rcases List.mem_cons.mp h with h1 | h2
            · subst h1; exact hc
            · exact ih _ _ _ h2
          · rw [if_neg hc] at h
            exact ih _ _ _ h

theorem DA.genAux_friday (fuel cur need : ℕ) (h : cur % 7 = 5) :
    DA.genAux (fuel + 3) cur (need + 1) =
      (cur + 3) :: DA.genAux fuel (cur + 3) need := by
  have e1 : ¬ ((cur + 1 - 1) % 7 < 5) := by omega
  have e2 : ¬ ((cur + 1 + 1 - 1) % 7 < 5) := by omega
  have e3 : (cur + 1 + 1 + 1 - 1) % 7 < 5 := by omega
  simp only [DA.genAux, e1, if_neg, if_false, e2, e3, if_pos, if_true]

theorem pyHash_collision :
    pyTupleHash ((-1 : ℚ) :: List.replicate 59 0) =
      pyTupleHash ((-2 : ℚ) :: List.replicate 59 0) := by decide

/-- A write under one window is served back for any window with the same
derived key: colliding windows are indistinguishable to the result cache. -/
theorem cache_serves_collision (s : MLE.MLEState) (t : String)
    (d₁ d₂ f : List ℚ) (he : s.enabled = true) (hb : s.backendUp = true)
    (hk : MLE.cacheKey t d₁ = MLE.cacheKey t d₂) :
    MLE.get_forecast (MLE.set_forecast s t d₁ f) t d₂ = some f := by
  simp [MLE.get_forecast, MLE.set_forecast, he, hb, hk, List.lookup]

theorem roundHalfEven_sub_abs_le (x : ℚ) :
    |(DA.roundHalfEven x : ℚ) - x| ≤ 1 / 2 := by
  simp only [DA.roundHalfEven]
  have h1 : (⌊x⌋ : ℚ) ≤ x := Int.floor_le x
  have h2 : x < ⌊x⌋ + 1 := Int.lt_floor_add_one x
  split_ifs with a b c <;> rw [abs_le] <;> constructor <;> push_cast <;> linarith

theorem round2_sub_abs_le (x : ℚ) : |DA.round2 x - x| ≤ 1 / 200 := by
  simp only [DA.round2]
  have h := roundHalfEven_sub_abs_le (x * 100)
  rw [abs_le] at h ⊢
  obtain ⟨h1, h2⟩ := h
  constructor <;> linarith

theorem validationForecast_eq_some (prices : List ℚ) (dates : List ℕ)
    (oracle : List ℚ → List ℚ) (v : DA.ValidationData)
    (h : DA.validationForecast prices dates oracle = some v) :
    90 ≤ prices.length ∧
    v.actual = prices.drop (prices.length - 30) ∧
    v.predicted = oracle ((prices.drop (prices.length - 90)).take 60) ∧
    v.dates = dates.drop (dates.length - 30) ∧
    v.mae = DA.round2 (DA.npMeanAbsSub v.actual v.predicted) := by
  simp only [DA.validationForecast] at h
  split_ifs at h with h90 hpred
  · obtain rfl := (Option.some.inj h).symm
    exact ⟨h90, rfl, rfl, rfl, rfl⟩

theorem futureForecast_eq_some (prices : List ℚ) (dates : List ℕ)
    (oracle : List ℚ → List ℚ) (val : Option DA.ValidationData)
    (f : DA.FutureData) (h : DA.futureForecast prices dates oracle val = some f) :
    60 ≤ prices.length ∧
    f.predicted = oracle (prices.drop (prices.length - 60)) ∧
    f.mae = (val.map DA.ValidationData.mae).getD 0 ∧
    f.predicted_upper = f.predicted.map (fun p => p + f.mae) ∧
    f.predicted_lower = f.predicted.map (fun p => p - f.mae) ∧
    f.dates = DA.generate_future_dates (dates.getLastD 0) f.predicted.length := by
  simp only [DA.futureForecast] at h
  split_ifs at h with h60 hpred
  · obtain rfl := (Option.some.inj h).symm
    exact ⟨h60, rfl, rfl, rfl, rfl, rfl⟩

theorem get_forecast_down (s : MLE.MLEState) (ticker : String) (data : List ℚ)
    (h : s.enabled = false ∨ s.backendUp = false) :
    MLE.get_forecast s ticker data = none := by
  unfold MLE.get_forecast
  rcases h with h | h
  · rw [if_pos h]
  · by_cases he : s.enabled = false
    · rw [if_pos he]
    · rw [if_neg he, if_pos h]

theorem set_forecast_down (s : MLE.MLEState) (ticker : String)
    (data forecast : List ℚ) (h : s.enabled = false ∨ s.backendUp = false) :
    MLE.set_forecast s ticker data forecast = s := by
  unfold MLE.set_forecast
  rcases h with h | h
  · rw [if_pos h]
  · by_cases he : s.enabled = false
    · rw [if_pos he]
    · rw [if_neg he, if_pos h]

theorem predict_hit (artifacts : String → Option MLE.Model) (s : MLE.MLEState)
    (ticker : String) (data c : List ℚ)
    (hc : (MLE.get_forecast s ticker.toUpper data).getD [] = c) (hne : c ≠ []) :
    MLE.predict artifacts s ticker data =
      (s, .ok ticker.toUpper c "N-BEATS-FP32-CACHED") := by
  simp only [MLE.predict, hc]
  rw [if_pos hne]

theorem predict_miss_loaded (artifacts : String → Option MLE.Model)
    (s : MLE.MLEState) (ticker : String) (data : List ℚ) (m : MLE.Model)
    (hc : (MLE.get_forecast s ticker.toUpper data).getD [] = [])
    (hmc : s.models.lookup ticker.toUpper = none)
    (hart : artifacts (MLE.get_model_path ticker.toUpper) = some m) :
    MLE.predict artifacts s ticker data =
      (MLE.set_forecast
          { s with models := (ticker.toUpper, m) :: s.models,
                   execCalls := s.execCalls + 1 } ticker.toUpper data (m data),
        .ok ticker.toUpper (m data) "N-BEATS-FP32") := by
  simp only [MLE.predict, hc]
  rw [if_neg (by simp)]
  simp only [MLE.load_model_for_ticker, hmc, hart]

theorem predict_not_found (artifacts : String → Option MLE.Model)
    (s : MLE.MLEState) (ticker : String) (data : List ℚ)
    (hc : (MLE.get_forecast s ticker.toUpper data).getD [] = [])
    (hmc : s.models.lookup ticker.toUpper = none)
    (hart : artifacts (MLE.get_model_path ticker.toUpper) = none) :
    MLE.predict artifacts s ticker data = (s, .notFound ticker.toUpper) := by
  simp only [MLE.predict, hc]
  rw [if_neg (by simp)]
  simp only [MLE.load_model_for_ticker, hmc, hart]

theorem predict_ok_ticker (artifacts : String → Option MLE.Model)
    (s : MLE.MLEState) (ticker : String) (data : List ℚ)
    (st : String) (f : List ℚ) (ver : String)
    (h : (MLE.predict artifacts s ticker data).2 = .ok st f ver) :
    st = ticker.toUpper := by
  simp only [MLE.predict] at h
  by_cases hc : (MLE.get_forecast s ticker.toUpper data).getD [] ≠ []
  · rw [if_pos hc] at h
    injection h with h1 _ _
    exact h1.symm
  · rw [if_neg hc] at h
    rcases hl : MLE.load_model_for_ticker artifacts s.models ticker.toUpper
      with ⟨mc, mo⟩
    rw [hl] at h
    cases mo with
    | none => injection h
    | some m =>
        injection h with h1 _ _
        exact h1.symm

/-! ### Claims -/

/-- C1: the derived cache key is determined by (symbol, window): element-wise
identical windows give identical keys.  But the second half of the claim
fails: there are pairs of 60-element windows that differ in an element yet
share the key, because Python's numeric hash identifies `-1.0` and `-2.0`
(both hash to `-2`), so the result cache can serve one window's forecast for
a different window.  This counterexample exhibits the two windows, the equal
keys, and a cache hit for window 2 on an entry stored for window 1. -/
theorem C1_counterexample :
    ((-1 : ℚ) :: List.replicate 59 0) ≠ ((-2 : ℚ) :: List.replicate 59 0) ∧
    ((-1 : ℚ) :: List.replicate 59 0).length = 60 ∧
    ((-2 : ℚ) :: List.replicate 59 0).length = 60 ∧
    MLE.cacheKey "NVDA" ((-1 : ℚ) :: List.replicate 59 0) =
      MLE.cacheKey "NVDA" ((-2 : ℚ) :: List.replicate 59 0) ∧
    MLE.get_forecast
        (MLE.set_forecast (MLE.initCache true 3600) "NVDA"
          ((-1 : ℚ) :: List.replicate 59 0) [42])
        "NVDA" ((-2 : ℚ) :: List.replicate 59 0) = some [42] := by
  have hkey : MLE.cacheKey "NVDA" ((-1 : ℚ) :: List.replicate 59 0) =
      MLE.cacheKey "NVDA" ((-2 : ℚ) :: List.replicate 59 0) := by
    unfold MLE.cacheKey; rw [pyHash_collision]
  exact ⟨by decide, by decide, by decide, hkey,
    cache_serves_collision _ _ _ _ _ rfl rfl hkey⟩

/-- C1 (amended): for every symbol, element-wise identical windows always map
to the same cache key; but key collisions between distinct windows exist
(the windows need not map to different keys), witnessed by two 60-element
windows differing in their first element that share a key. -/
theorem C1_key_determinism_and_collision :
    (∀ (t : String) (d₁ d₂ : List ℚ), d₁ = d₂ →
        MLE.cacheKey t d₁ = MLE.cacheKey t d₂) ∧
    (∃ d₁ d₂ : List ℚ, d₁.length = 60 ∧ d₂.length = 60 ∧ d₁ ≠ d₂ ∧
        MLE.cacheKey "NVDA" d₁ = MLE.cacheKey "NVDA" d₂) := by
  refine ⟨fun t d₁ d₂ h => by rw [h], ?_⟩
  refine ⟨(-1 : ℚ) :: List.replicate 59 0, (-2 : ℚ) :: List.replicate 59 0,
    by decide, by decide, by decide, ?_⟩
  unfold MLE.cacheKey; rw [pyHash_collision]

/-- Witness for C1: the determinism half applied to a concrete window. -/
theorem C1_witness :
    MLE.cacheKey "NVDA" (List.replicate 60 (100 : ℚ)) =
      MLE.cacheKey "NVDA" (List.replicate 60 (100 : ℚ)) :=
  C1_key_determinism_and_collision.1 "NVDA" _ _ rfl

/-- C2: the claim fails on the reported MAE: `analyze` stores
`round(mae, 2)`, not the exact elementwise mean.  With a 90-point history
whose last 30 points are `100.001` and a model predicting `100.0`
throughout, the true mean absolute error is `0.001` but the reported MAE is
`0.0`. -/
theorem C2_counterexample :
    DA.validationForecast
        (List.replicate 60 (100 : ℚ) ++ List.replicate 30 (100 + 1 / 1000))
        (List.range 90) (fun _ => List.replicate 30 100) =
      some { dates := (List.range 90).drop 60,
             actual := List.replicate 30 (100 + 1 / 1000),
             predicted := List.replicate 30 100,
             mae := 0 } ∧
    DA.npMeanAbsSub (List.replicate 30 ((100 : ℚ) + 1 / 1000))
        (List.replicate 30 100) = 1 / 1000 ∧
    (0 : ℚ) ≠ 1 / 1000 := by decide

/-- C2 (amended): provided the MLE call returns a non-empty forecast, the
validation forecast is built if and only if the history has at least 90
points; when built, the model input is the slice `[-90:-30]`, the target is
the slice `[-30:]`, and the reported MAE is the elementwise mean of
`|actual - predicted|` rounded to two decimal places (for the flat
all-100.0 history with all-100.0 predictions it is exactly 0). -/
theorem C2_validation_gate (prices : List ℚ) (dates : List ℕ)
    (oracle : List ℚ → List ℚ) (ho : ∀ w, oracle w ≠ []) :
    ((DA.validationForecast prices dates oracle).isSome ↔ 90 ≤ prices.length) ∧
    (∀ v, DA.validationForecast prices dates oracle = some v →
      v.actual = prices.drop (prices.length - 30) ∧
      v.predicted = oracle ((prices.drop (prices.length - 90)).take 60) ∧
      v.mae = DA.round2 (DA.npMeanAbsSub v.actual v.predicted)) := by
  constructor
  · simp only [DA.validationForecast]
    split_ifs with h90 hpred
    · simpa using h90
    · exact absurd (ho _) hpred
    · simp only [Option.isSome_none, Bool.false_eq_true, false_iff]
      omega
  · intro v hv
    obtain ⟨_, h1, h2, _, h3⟩ := validationForecast_eq_some prices dates oracle v hv
    exact ⟨h1, h2, h3⟩

/-- Witness for C2: at histories of length 89 and 90 with a total oracle,
the gate of the amended claim decides exactly as stated, and the flat
100.0 history reports MAE 0. -/
theorem C2_witness :
    ¬ (DA.validationForecast (List.replicate 89 (100 : ℚ)) (List.range 89)
        (fun _ => List.replicate 30 100)).isSome ∧
    (DA.validationForecast (List.replicate 90 (100 : ℚ)) (List.range 90)
        (fun _ => List.replicate 30 100)).isSome ∧
    (DA.validationForecast (List.replicate 90 (100 : ℚ)) (List.range 90)
        (fun _ => List.replicate 30 100)).map DA.ValidationData.mae =
      some 0 := by
  refine ⟨fun hs => ?_, ?_, by decide⟩
  · have h := (C2_validation_gate (List.replicate 89 (100 : ℚ)) (List.range 89)
      (fun _ => List.replicate 30 100) (fun w => by simp)).1.mp hs
    exact absurd h (by decide)
  · exact (C2_validation_gate (List.replicate 90 (100 : ℚ)) (List.range 90)
      (fun _ => List.replicate 30 100) (fun w => by simp)).1.mpr (by decide)

/-- C3: whenever the future forecast is produced, its per-step bounds are
`predicted + mae` and `predicted - mae` where `mae` is the (rounded) MAE of
the validation step of the same request; and when validation was not
performed the bounds coincide with the raw predictions (zero width). -/
theorem C3_confidence_bounds (prices : List ℚ) (dates : List ℕ)
    (valOracle futOracle : List ℚ → List ℚ) (f : DA.FutureData)
    (hf : (DA.analyzeForecast prices dates valOracle futOracle).2 = some f) :
    (f.predicted_upper = f.predicted.map (fun p => p +
        (((DA.analyzeForecast prices dates valOracle futOracle).1).map
          DA.ValidationData.mae).getD 0) ∧
     f.predicted_lower = f.predicted.map (fun p => p -
        (((DA.analyzeForecast prices dates valOracle futOracle).1).map
          DA.ValidationData.mae).getD 0)) ∧
    ((DA.analyzeForecast prices dates valOracle futOracle).1 = none →
      f.predicted_upper = f.predicted ∧ f.predicted_lower = f.predicted) := by
  have hfut : (DA.analyzeForecast prices dates valOracle futOracle).2 =
      DA.futureForecast prices dates futOracle
        (DA.validationForecast prices dates valOracle) := rfl
  have hval : (DA.analyzeForecast prices dates valOracle futOracle).1 =
      DA.validationForecast prices dates valOracle := rfl
  rw [hfut] at hf
  obtain ⟨_, _, hmae, hup, hlo, _⟩ :=
    futureForecast_eq_some prices dates futOracle _ f hf
  rw [hval]
  refine ⟨⟨by rw [hup, hmae], by rw [hlo, hmae]⟩, fun hnone => ?_⟩
  rw [hnone] at hmae
  simp at hmae
  constructor
  · rw [hup, hmae]; simp
  · rw [hlo, hmae]; simp

/-- Witness for C3: a 60-point history, no validation possible, future
oracle returning `[5]`: the bounds equal the raw prediction. -/
theorem C3_witness :
    ({ dates := [60], predicted := [5], predicted_upper := [5],
       predicted_lower := [5], mae := 0 } : DA.FutureData).predicted_upper =
      ({ dates := [60], predicted := [5], predicted_upper := [5],
         predicted_lower := [5], mae := 0 } : DA.FutureData).predicted ∧
    ({ dates := [60], predicted := [5], predicted_upper := [5],
       predicted_lower := [5], mae := 0 } : DA.FutureData).predicted_lower =
      ({ dates := [60], predicted := [5], predicted_upper := [5],
         predicted_lower := [5], mae := 0 } : DA.FutureData).predicted :=
  (C3_confidence_bounds (List.replicate 60 (100 : ℚ)) (List.range 60)
      (fun _ => []) (fun _ => [5]) _ (by decide)).2 (by decide)

/-- C8: the two sub-forecasts of one analysis request fail in isolation:
whatever the validation oracle does (including always failing), a future
forecast is still attempted and returned when its own call succeeds; the
validation payload does not depend on the future oracle at all; and
whatever the future oracle does, a successful validation is returned. -/
theorem C8_failure_isolation (prices : List ℚ) (dates : List ℕ) :
    (∀ valOracle futOracle : List ℚ → List ℚ, 60 ≤ prices.length →
      futOracle (prices.drop (prices.length - 60)) ≠ [] →
      ((DA.analyzeForecast prices dates valOracle futOracle).2).isSome) ∧
    (∀ valOracle futOracle₁ futOracle₂ : List ℚ → List ℚ,
      (DA.analyzeForecast prices dates valOracle futOracle₁).1 =
        (DA.analyzeForecast prices dates valOracle futOracle₂).1) ∧
    (∀ valOracle futOracle : List ℚ → List ℚ, 90 ≤ prices.length →
      valOracle ((prices.drop (prices.length - 90)).take 60) ≠ [] →
      ((DA.analyzeForecast prices dates valOracle futOracle).1).isSome) := by
  refine ⟨fun valOracle futOracle h60 hpred => ?_, fun _ _ _ => rfl,
    fun valOracle futOracle h90 hpred => ?_⟩
  · show (DA.futureForecast prices dates futOracle _).isSome
    simp only [DA.futureForecast]
    rw [if_pos h60, if_pos hpred]
    rfl
  · show (DA.validationForecast prices dates valOracle).isSome
    simp only [DA.validationForecast]
    rw [if_pos h90, if_pos hpred]
    rfl

/-- Witness for C8: with a validation oracle that always fails and a future
oracle returning `[5]` on a 60-point history, the future forecast is still
produced; with a 90-point history, a failing future oracle still leaves the
validation produced. -/
theorem C8_witness :
    ((DA.analyzeForecast (List.replicate 60 (100 : ℚ)) (List.range 60)
        (fun _ => []) (fun _ => [5])).2).isSome ∧
    ((DA.analyzeForecast (List.replicate 90 (100 : ℚ)) (List.range 90)
        (fun _ => List.replicate 30 100) (fun _ => [])).1).isSome :=
  ⟨(C8_failure_isolation (List.replicate 60 (100 : ℚ)) (List.range 60)).1
      (fun _ => []) (fun _ => [5]) (by decide) (by decide),
   (C8_failure_isolation (List.replicate 90 (100 : ℚ)) (List.range 90)).2.2
      (fun _ => List.replicate 30 100) (fun _ => []) (by decide) (by decide)⟩

/-- C10: the MAE exposed by the validation payload is the exact mean
absolute error rounded to two decimals, hence within `0.005` of it, and it
is exactly the half-width of the future forecast's confidence band. -/
theorem C10_mae_rounding (prices : List ℚ) (dates : List ℕ)
    (valOracle futOracle : List ℚ → List ℚ) (v : DA.ValidationData)
    (hv : (DA.analyzeForecast prices dates valOracle futOracle).1 = some v) :
    v.mae = DA.round2 (DA.npMeanAbsSub v.actual v.predicted) ∧
    |v.mae - DA.npMeanAbsSub v.actual v.predicted| ≤ 1 / 200 ∧
    (∀ f, (DA.analyzeForecast prices dates valOracle futOracle).2 = some f →
      f.predicted_upper = f.predicted.map (fun p => p + v.mae) ∧
      f.predicted_lower = f.predicted.map (fun p => p - v.mae)) := by
  have hval : (DA.analyzeForecast prices dates valOracle futOracle).1 =
      DA.validationForecast prices dates valOracle := rfl
  rw [hval] at hv
  obtain ⟨_, _, _, _, hmae⟩ :=
    validationForecast_eq_some prices dates valOracle v hv
  refine ⟨hmae, ?_, fun f hf => ?_⟩
  · rw [hmae]; exact round2_sub_abs_le _
  · have hfut : (DA.analyzeForecast prices dates valOracle futOracle).2 =
        DA.futureForecast prices dates futOracle
          (DA.validationForecast prices dates valOracle) := rfl
    rw [hfut] at hf
    obtain ⟨_, _, hm, hup, hlo, _⟩ :=
      futureForecast_eq_some prices dates futOracle _ f hf
    rw [hv] at hm
    simp at hm
    exact ⟨by rw [hup, hm], by rw [hlo, hm]⟩

/-- Witness for C10: the flat 90-point history with a perfect oracle — the
reported MAE (0) is the rounded exact MAE and within 1/200 of it. -/
theorem C10_witness :
    ({ dates := (List.range 90).drop 60,
       actual := List.replicate 30 (100 : ℚ),
       predicted := List.replicate 30 (100 : ℚ), mae := 0 } :
        DA.ValidationData).mae =
      DA.round2 (DA.npMeanAbsSub (List.replicate 30 (100 : ℚ))
        (List.replicate 30 (100 : ℚ))) ∧
    |({ dates := (List.range 90).drop 60,
        actual := List.replicate 30 (100 : ℚ),
        predicted := List.replicate 30 (100 : ℚ), mae := 0 } :
         DA.ValidationData).mae -
       DA.npMeanAbsSub (List.replicate 30 (100 : ℚ))
         (List.replicate 30 (100 : ℚ))| ≤ 1 / 200 :=
  (fun h => ⟨h.1, h.2.1⟩)
    (C10_mae_rounding (List.replicate 90 (100 : ℚ)) (List.range 90)
      (fun _ => List.replicate 30 100) (fun _ => [7])
      { dates := (List.range 90).drop 60,
        actual := List.replicate 30 (100 : ℚ),
        predicted := List.replicate 30 (100 : ℚ), mae := 0 } (by decide))

/-- C7: future forecast date generation collects exactly `days` dates, none
of which falls on a Saturday or Sunday (weekday `(o - 1) % 7 ≥ 5`), and when
the start date is a Friday (weekday 4) the first generated date is the
following Monday, three calendar days later. -/
theorem C7_future_dates (start days : ℕ) :
    (DA.generate_future_dates start days).length = days ∧
    (∀ d ∈ DA.generate_future_dates start days, (d - 1) % 7 < 5) ∧
    (1 ≤ days → (start - 1) % 7 = 4 →
      (DA.generate_future_dates start days).head? = some (start + 3)) := by
  refine ⟨?_, ?_, ?_⟩
  · apply DA.genAux_length
    have := DA.pad_le start
    omega
  · intro d hd
    exact DA.genAux_weekday _ _ _ _ hd
  · intro hdays hfri
    obtain ⟨n, rfl⟩ : ∃ n, days = n + 1 := ⟨days - 1, by omega⟩
    have hs : start % 7 = 5 := by omega
    unfold DA.generate_future_dates
    have hf : 7 * (n + 1) + 7 = (7 * n + 11) + 3 := by ring
    rw [hf, DA.genAux_friday _ _ _ hs]
    simp

/-- Witness for C7: three business days generated from ordinal 5 (a Friday):
the theorem's hypotheses hold at `start = 5`, `days = 3`, and the head is
ordinal 8, the following Monday. -/
theorem C7_witness :
    (DA.generate_future_dates 5 3).length = 3 ∧
    (DA.generate_future_dates 5 3).head? = some 8 :=
  ⟨(C7_future_dates 5 3).1, (C7_future_dates 5 3).2.2 (by decide) (by decide)⟩

/-- C4: with the result cache connected and a model available for the
symbol (fresh in the model cache) whose forecast is non-empty, two
consecutive identical predict calls return the same forecast values, the
second is answered from the result cache (its model-version tag is the
cached one), and the second call does not invoke the inference executor
(the executor call counter does not change). -/
theorem C4_idempotent_predict (artifacts : String → Option MLE.Model)
    (s : MLE.MLEState) (ticker : String) (data : List ℚ) (m : MLE.Model)
    (he : s.enabled = true) (hb : s.backendUp = true)
    (hmc : s.models.lookup ticker.toUpper = none)
    (hart : artifacts (MLE.get_model_path ticker.toUpper) = some m)
    (hm : m data ≠ []) :
    ∃ f ver, f ≠ [] ∧
      (MLE.predict artifacts s ticker data).2 = .ok ticker.toUpper f ver ∧
      (MLE.predict artifacts
          ((MLE.predict artifacts s ticker data).1) ticker data).2 =
        .ok ticker.toUpper f "N-BEATS-FP32-CACHED" ∧
      ((MLE.predict artifacts
          ((MLE.predict artifacts s ticker data).1) ticker data).1).execCalls =
        ((MLE.predict artifacts s ticker data).1).execCalls := by
  by_cases hc : (MLE.get_forecast s ticker.toUpper data).getD [] = []
  · -- first call misses the result cache, computes and stores
    have h1 := predict_miss_loaded artifacts s ticker data m hc hmc hart
    have hget : MLE.get_forecast
        (MLE.set_forecast
          { s with models := (ticker.toUpper, m) :: s.models,
                   execCalls := s.execCalls + 1 } ticker.toUpper data (m data))
        ticker.toUpper data = some (m data) :=
      cache_serves_collision _ _ _ _ _ he hb rfl
    have h2 := predict_hit artifacts _ ticker data (m data)
      (by rw [hget]; rfl) hm
    refine ⟨m data, "N-BEATS-FP32", hm, ?_, ?_, ?_⟩
    · rw [h1]
    · rw [h1, h2]
    · rw [h1, h2]
  · -- first call already hits the result cache
    have h1 := predict_hit artifacts s ticker data _ rfl hc
    refine ⟨(MLE.get_forecast s ticker.toUpper data).getD [],
      "N-BEATS-FP32-CACHED", hc, ?_, ?_, ?_⟩
    · rw [h1]
    · rw [h1]; rw [show (s, MLE.PredictResult.ok ticker.toUpper
        ((MLE.get_forecast s ticker.toUpper data).getD [])
        "N-BEATS-FP32-CACHED").1 = s from rfl, h1]
    · simp only [h1]

/-- Witness for C4: a connected cache, one artifact, forecast `[1]`; the
idempotence theorem applies at this concrete input. -/
theorem C4_witness :
    ∃ f ver, f ≠ [] ∧
      (MLE.predict (fun _ => some (fun _ => [1])) (MLE.initCache true 3600)
          "NVDA" (List.replicate 60 0)).2 = .ok "NVDA".toUpper f ver ∧
      (MLE.predict (fun _ => some (fun _ => [1]))
          ((MLE.predict (fun _ => some (fun _ => [1])) (MLE.initCache true 3600)
            "NVDA" (List.replicate 60 0)).1) "NVDA" (List.replicate 60 0)).2 =
        .ok "NVDA".toUpper f "N-BEATS-FP32-CACHED" ∧
      ((MLE.predict (fun _ => some (fun _ => [1]))
          ((MLE.predict (fun _ => some (fun _ => [1])) (MLE.initCache true 3600)
            "NVDA" (List.replicate 60 0)).1) "NVDA" (List.replicate 60 0)).1).execCalls =
        ((MLE.predict (fun _ => some (fun _ => [1])) (MLE.initCache true 3600)
          "NVDA" (List.replicate 60 0)).1).execCalls :=
  C4_idempotent_predict (fun _ => some (fun _ => [1])) (MLE.initCache true 3600)
    "NVDA" (List.replicate 60 0) (fun _ => [1]) rfl rfl rfl rfl (by decide)

/-- C5: if the backing store is unreachable at construction the cache is
disabled; with a disabled cache (or a backend that fails after
construction) every lookup is a miss and every store is a no-op, and a
predict request still computes and returns its forecast — the cache outage
never produces a failure and the store contents never change. -/
theorem C5_cache_outage (artifacts : String → Option MLE.Model)
    (s : MLE.MLEState) (ticker : String) (data forecast : List ℚ)
    (m : MLE.Model) (ttl : ℕ)
    (hdown : s.enabled = false ∨ s.backendUp = false)
    (hmc : s.models.lookup ticker.toUpper = none)
    (hart : artifacts (MLE.get_model_path ticker.toUpper) = some m) :
    (MLE.initCache false ttl).enabled = false ∧
    MLE.get_forecast s ticker data = none ∧
    MLE.set_forecast s ticker data forecast = s ∧
    (MLE.predict artifacts s ticker data).2 =
      .ok ticker.toUpper (m data) "N-BEATS-FP32" ∧
    ((MLE.predict artifacts s ticker data).1).store = s.store ∧
    ((MLE.predict artifacts s ticker data).1).enabled = s.enabled ∧
    ((MLE.predict artifacts s ticker data).1).backendUp = s.backendUp := by
  have hmiss : (MLE.get_forecast s ticker.toUpper data).getD [] = [] := by
    rw [get_forecast_down s ticker.toUpper data hdown]; rfl
  have h1 := predict_miss_loaded artifacts s ticker data m hmiss hmc hart
  have hset := set_forecast_down
    { s with models := (ticker.toUpper, m) :: s.models,
             execCalls := s.execCalls + 1 } ticker.toUpper data (m data) hdown
  refine ⟨rfl, get_forecast_down s ticker data hdown,
    set_forecast_down s ticker data forecast hdown, ?_, ?_, ?_, ?_⟩ <;>
    rw [h1] <;> simp only [hset]

/-- Witness for C5: a cache constructed against an unreachable store, one
artifact; the outage theorem applies at this concrete input. -/
theorem C5_witness :
    (MLE.initCache false 3600).enabled = false ∧
    MLE.get_forecast (MLE.initCache false 3600) "NVDA"
      (List.replicate 60 0) = none ∧
    MLE.set_forecast (MLE.initCache false 3600) "NVDA"
      (List.replicate 60 0) [2] = MLE.initCache false 3600 ∧
    (MLE.predict (fun _ => some (fun _ => [1])) (MLE.initCache false 3600)
        "NVDA" (List.replicate 60 0)).2 =
      .ok "NVDA".toUpper ((fun _ : List ℚ => [1]) (List.replicate 60 0))
        "N-BEATS-FP32" ∧
    ((MLE.predict (fun _ => some (fun _ => [1])) (MLE.initCache false 3600)
        "NVDA" (List.replicate 60 0)).1).store =
      (MLE.initCache false 3600).store ∧
    ((MLE.predict (fun _ => some (fun _ => [1])) (MLE.initCache false 3600)
        "NVDA" (List.replicate 60 0)).1).enabled =
      (MLE.initCache false 3600).enabled ∧
    ((MLE.predict (fun _ => some (fun _ => [1])) (MLE.initCache false 3600)
        "NVDA" (List.replicate 60 0)).1).backendUp =
      (MLE.initCache false 3600).backendUp :=
  C5_cache_outage (fun _ => some (fun _ => [1])) (MLE.initCache false 3600)
    "NVDA" (List.replicate 60 0) [2] (fun _ => [1]) 3600 (Or.inl rfl) rfl rfl

/-- C6: when the symbol's artifact is absent (and the result cache does not
already hold a forecast for this window), predict returns the
distinguishable not-found outcome — a dedicated constructor, not a generic
failure — with the state unchanged, so the model cache records no entry for
the symbol. -/
theorem C6_model_not_found (artifacts : String → Option MLE.Model)
    (s : MLE.MLEState) (ticker : String) (data : List ℚ)
    (hmiss : (MLE.get_forecast s ticker.toUpper data).getD [] = [])
    (hmc : s.models.lookup ticker.toUpper = none)
    (hart : artifacts (MLE.get_model_path ticker.toUpper) = none) :
    MLE.predict artifacts s ticker data = (s, .notFound ticker.toUpper) ∧
    ((MLE.predict artifacts s ticker data).1).models = s.models ∧
    (∀ st f ver, MLE.PredictResult.notFound ticker.toUpper ≠ .ok st f ver) := by
  have h := predict_not_found artifacts s ticker data hmiss hmc hart
  exact ⟨h, by rw [h], fun st f ver h' => MLE.PredictResult.noConfusion h'⟩

/-- Witness for C6: symbol "AAA" with an empty artifact store and a fresh
state; the not-found theorem applies at this concrete input. -/
theorem C6_witness :
    MLE.predict (fun _ => none) (MLE.initCache true 3600) "AAA"
        (List.replicate 60 0) =
      (MLE.initCache true 3600, .notFound "AAA".toUpper) ∧
    ((MLE.predict (fun _ => none) (MLE.initCache true 3600) "AAA"
        (List.replicate 60 0)).1).models = (MLE.initCache true 3600).models ∧
    (∀ st f ver, MLE.PredictResult.notFound "AAA".toUpper ≠ .ok st f ver) :=
  C6_model_not_found (fun _ => none) (MLE.initCache true 3600) "AAA"
    (List.replicate 60 0) rfl rfl rfl

/-- C9: predict is invariant under the letter case of the requested symbol:
two tickers with the same uppercasing produce identical predict behaviour
(hence the same model-cache lookup, artifact path, result-cache key and
response), the derived cache key and artifact path agree, and every
successful response carries the uppercased ticker. -/
theorem C9_case_insensitive (artifacts : String → Option MLE.Model)
    (s : MLE.MLEState) (t₁ t₂ : String) (data : List ℚ)
    (h : t₁.toUpper = t₂.toUpper) :
    MLE.predict artifacts s t₁ data = MLE.predict artifacts s t₂ data ∧
    MLE.cacheKey t₁ data = MLE.cacheKey t₂ data ∧
    MLE.get_model_path t₁.toUpper = MLE.get_model_path t₂.toUpper ∧
    (∀ st f ver, (MLE.predict artifacts s t₁ data).2 = .ok st f ver →
      st = t₁.toUpper) := by
  refine ⟨?_, ?_, by rw [h], fun st f ver hok => predict_ok_ticker _ _ _ _ _ _ _ hok⟩
  · simp only [MLE.predict, h]
  · simp only [MLE.cacheKey, MLE.get_key, h]

/-- Witness for C9: the theorem applied at a concrete state and symbol. -/
theorem C9_witness :
    MLE.predict (fun _ => none) (MLE.initCache true 3600) "NVDA"
        (List.replicate 60 0) =
      MLE.predict (fun _ => none) (MLE.initCache true 3600) "NVDA"
        (List.replicate 60 0) ∧
    MLE.cacheKey "NVDA" (List.replicate 60 0) =
      MLE.cacheKey "NVDA" (List.replicate 60 0) :=
  (fun c => ⟨c.1, c.2.1⟩)
    (C9_case_insensitive (fun _ => none) (MLE.initCache true 3600)
      "NVDA" "NVDA" (List.replicate 60 0) rfl)
